import Mathlib

set_option maxHeartbeats 1000000

/-!
Shallow embedding of `src/main.rs` from `rds-snapshot-share`.

The program resolves four parameters (an RDS resource identifier, a KMS key
id, a "use existing snapshot" flag, and a snapshot descriptor) either from
explicit command-line values or by listing cloud resources and prompting the
operator interactively.

Modelling conventions, stated once here:

* Cloud service responses are inputs (an `Env` record); the paginated
  collection performed by the SDK is modelled as the already-flattened list,
  wrapped in `Except String` so a failing page surfaces as a service error.
* SDK record fields that the program reads through `.unwrap()` and for which
  absence is relevant to the spec are modelled as `Option`; an `.unwrap()`
  panic and a propagated `Result` error both terminate the process, so both
  are modelled uniformly as `Except.error` outcomes of a run.
* The interactive prompt layer (`inquire`) is an external collaborator; its
  contract is modelled from the spec: a `Select` over an empty option list
  fails without showing a prompt, otherwise the prompt is shown and the
  operator either picks one of the presented labels or cancels.
* Rust `HashMap`s built by `collect()` are modelled as their insertion-order
  entry list; lookup takes the value of the last insertion with the queried
  key (last-write-wins), and the nondeterministic iteration order of
  `HashMap::keys()` is an explicit parameter of a run.
-/

/-- Errors that abort a run: the empty-options configuration error of the
prompt layer, operator cancellation, a physically impossible operator answer,
a `.unwrap()` panic, or an error returned by a cloud service call. -/
inductive RunErr
  | emptyOptions
  | cancelled
  | badAnswer
  | panicked
  | service (msg : String)
  deriving DecidableEq

/-- One operator reaction to a prompt: pick the option with the given label,
answer a yes/no question, or cancel the prompt. -/
inductive Answer
  | choose (label : String)
  | confirmAns (b : Bool)
  | cancel
  deriving DecidableEq

/-- Observable effects of a run: listing calls to the cloud services and
prompts actually presented to the operator. -/
inductive Event
  | listInstances
  | listClusters
  | listKeysAliases
  | listSnapshots (cluster : String)
  | promptShown (prompt : String) (choices : List String)
  | promptConfirm (prompt : String)
  deriving DecidableEq

/-- A `DBInstance` record as read by `RDS::describe_instances`: the instance
identifier (read via `.unwrap()`) and the optional cluster identifier whose
absence marks a standalone instance. -/
structure DbInstance where
  db_instance_identifier : Option String
  db_cluster_identifier : Option String
  deriving DecidableEq

/-- A `DBClusterSnapshot` record as read by
`RDS::describe_db_cluster_snapshots`: the snapshot identifier and the
creation time in whole seconds since the Unix epoch, both read through
`.unwrap()`. -/
structure SnapshotRec where
  db_cluster_snapshot_identifier : Option String
  snapshot_create_time : Option Nat
  deriving DecidableEq

/-- A `KeyListEntry` from the KMS key listing; the program reads the key id
unconditionally. -/
structure KeyListEntry where
  key_id : String
  deriving DecidableEq

/-- An `AliasListEntry` from the KMS alias listing: an alias name and an
optional target key id (`target_key_id()` may be absent; the program maps an
absent target to the empty string with `unwrap_or_default`). -/
structure AliasListEntry where
  alias_name : String
  target_key_id : Option String
  deriving DecidableEq

/-- The `Key` struct of the program: a key id with the alias matched to it,
if any (the source field `alias` needs quoting in Lean). -/
structure Key where
  id : String
  «alias» : Option String
  deriving DecidableEq

/-- The `--db-type` command-line enumeration. -/
inductive DatabaseType
  | cluster
  | database
  deriving DecidableEq

/-- The command-line arguments consumed by `main` (the unused positional
`account_ids` argument is omitted: `main` never reads it). -/
structure Args where
  db_identifier : Option String
  kms_key_id : Option String
  db_type : DatabaseType
  snapshot_id : Option String

/-- The Resolved Parameters tuple printed at the end of `main`. -/
structure Resolved where
  identifier : String
  kms_key_id : String
  use_existing_snapshot : Bool
  snapshot : String
  deriving DecidableEq

/-- One run's cloud service responses: each listing endpoint as the
already-flattened paginated result, or a service error. -/
structure Env where
  instances : Except String (List DbInstance)
  clusters : Except String (List (Option String))
  keys : Except String (List KeyListEntry)
  aliases : Except String (List AliasListEntry)
  snapshots : String → Except String (List SnapshotRec)

/-- The operator's scripted reaction to each of the four prompts `main` can
show (each prompt occurs at most once per run). -/
structure Script where
  rdsAnswer : Answer
  keyAnswer : Answer
  confirmAnswer : Answer
  snapAnswer : Answer

/-- Lookup in the model of a Rust `HashMap` built by `collect()` from a
`(key, value)` iterator: on duplicate keys the last insertion wins, so the
lookup scans the entry list from the right. -/
def hmGet {V : Type} (entries : List (String × V)) (k : String) : Option V :=
  (entries.reverse.find? (fun p => decide (p.1 = k))).map Prod.snd

/-- The distinct keys of a modelled `HashMap`, in first-insertion order; the
arbitrary iteration order of `HashMap::keys()` is applied on top of this list
by the run's hash-order parameter. -/
def hmKeysAux {V : Type} (seen : List String) : List (String × V) → List String
  | [] => []
  | (k, _) :: rest =>
    if k ∈ seen then hmKeysAux seen rest else k :: hmKeysAux (k :: seen) rest

/-- Key set of a modelled `HashMap` (see `hmKeysAux`). -/
def hmKeys {V : Type} (entries : List (String × V)) : List String :=
  hmKeysAux [] entries

/-- Model of `Option::unwrap`: a missing value panics, which aborts the run. -/
def optUnwrap {α : Type} (o : Option α) : Except RunErr α :=
  match o with
  | some a => Except.ok a
  | none => Except.error RunErr.panicked

/-- Model of collecting an iterator of fallible items into a `Vec`: the first
failing item aborts the whole collection, no partial list is produced. -/
def mapUnwrap {α β : Type} (f : α → Except RunErr β) : List α → Except RunErr (List β)
  | [] => Except.ok []
  | a :: rest =>
    match f a with
    | Except.error e => Except.error e
    | Except.ok b =>
      match mapUnwrap f rest with
      | Except.error e => Except.error e
      | Except.ok bs => Except.ok (b :: bs)

/-- The alias map built in `KMS::list_keys`: each alias is inserted under
`target_key_id().unwrap_or_default()`, so an alias with no target id lands in
the empty-string bucket. -/
def aliasEntries (aliases : List AliasListEntry) : List (String × AliasListEntry) :=
  aliases.map (fun al => (al.target_key_id.getD "", al))

/-- One iteration of the classification loop of `KMS::list_keys`: look the key
id up in the alias map; a matched alias whose name starts with `alias/aws`
marks the key provider-managed (dropped, `none`), otherwise the key is kept
with its matched alias name, or with no alias when nothing matched. -/
def classifyKey (alias_map : List (String × AliasListEntry)) (key : KeyListEntry) : Option Key :=
  match hmGet alias_map key.key_id with
  | some key_alias =>
    if key_alias.alias_name.startsWith "alias/aws" then none
    else some ⟨key.key_id, some key_alias.alias_name⟩
  | none => some ⟨key.key_id, none⟩

/-- The pure core of `KMS::list_keys`: classify every key against the alias
map and keep the customer-managed ones, in input order. -/
def list_keys (aliases : List AliasListEntry) (keys : List KeyListEntry) : List Key :=
  keys.filterMap (classifyKey (aliasEntries aliases))

/-- The alias name matched to a key id by the alias map (spec-side reading of
`classifyKey`'s lookup). -/
def matchedAlias (aliases : List AliasListEntry) (id : String) : Option String :=
  (hmGet (aliasEntries aliases) id).map (fun al => al.alias_name)

/-- A key id counts as provider-managed exactly when its matched alias name
starts with `alias/aws`. -/
def providerManaged (aliases : List AliasListEntry) (id : String) : Bool :=
  match matchedAlias aliases id with
  | some name => name.startsWith "alias/aws"
  | none => false

/-- Gregorian leap-year test, as in the calendar used by the timestamp
formatter. -/
def isLeap (y : Nat) : Bool :=
  (y % 4 == 0 && y % 100 != 0) || y % 400 == 0

/-- Number of days in calendar year `y`. -/
def daysInYear (y : Nat) : Nat :=
  if isLeap y then 366 else 365

/-- Walk forward from a base year, consuming whole years from a day count;
returns the final year and the remaining day-of-year offset. The fuel always
suffices because each step consumes at least 365 days. -/
def yearLoop : Nat → Nat → Nat → Nat × Nat
  | 0, y, rem => (y, rem)
  | fuel + 1, y, rem =>
    if rem < daysInYear y then (y, rem) else yearLoop fuel (y + 1) (rem - daysInYear y)

/-- The month lengths of a (leap) year, January first. -/
def monthLengths (leap : Bool) : List Nat :=
  [31, if leap then 29 else 28, 31, 30, 31, 30, 31, 31, 30, 31, 30, 31]

/-- Consume whole months from a day-of-year offset; returns the final
one-based month and the zero-based day of month. -/
def monthLoop : List Nat → Nat → Nat → Nat × Nat
  | [], m, doy => (m, doy)
  | len :: rest, m, doy =>
    if doy < len then (m, doy) else monthLoop rest (m + 1) (doy - len)

/-- Civil UTC date (year, month, day) of a day count since 1970-01-01. This
models the epoch-to-calendar conversion of the external `chrono` crate
(`NaiveDateTime::from_timestamp_opt` + `DateTime::<Utc>`). -/
def civilFromDays (days : Nat) : Nat × Nat × Nat :=
  let yd := yearLoop (days / 365 + 1) 1970 days
  let md := monthLoop (monthLengths (isLeap yd.1)) 1 yd.2
  (yd.1, md.1, md.2 + 1)

/-- The ten decimal digit characters. -/
def digitChars : List Char :=
  ['0', '1', '2', '3', '4', '5', '6', '7', '8', '9']

/-- Last decimal digit of `n`, as a character. -/
def digitChar (n : Nat) : Char :=
  digitChars.getD (n % 10) '0'

/-- Two-digit zero-padded decimal rendering (`%m`, `%d`, `%H`, `%M`, `%S`). -/
def pad2c (n : Nat) : List Char :=
  [digitChar (n / 10), digitChar n]

/-- Four-digit zero-padded decimal rendering (`%Y`). -/
def pad4c (n : Nat) : List Char :=
  [digitChar (n / 1000), digitChar (n / 100), digitChar (n / 10), digitChar n]

/-- Character rendering of `datetime.format("%Y-%m-%d %H:%M:%S")` for a
Unix timestamp in whole seconds (timestamps are at or after the epoch). -/
def timestampChars (secs : Nat) : List Char :=
  let rem := secs % 86400
  let ymd := civilFromDays (secs / 86400)
  pad4c ymd.1 ++ '-' :: pad2c ymd.2.1 ++ '-' :: pad2c ymd.2.2 ++
    ' ' :: pad2c (rem / 3600) ++ ':' :: pad2c (rem / 60 % 60) ++ ':' :: pad2c (rem % 60)

/-- The formatted `YYYY-MM-DD HH:MM:SS` timestamp string. -/
def timestampString (secs : Nat) : String :=
  String.mk (timestampChars secs)

/-- The snapshot display descriptor `format!("{}|{}", snapshot_id, datetime)`
built in `RDS::describe_db_cluster_snapshots`. -/
def formatSnapshot (sid : String) (secs : Nat) : String :=
  sid ++ "|" ++ timestampString secs

/-- Decimal digit test used by the timestamp-shape checker. -/
def isDigitChar (c : Char) : Bool :=
  decide ('0' ≤ c) && decide (c ≤ '9')

/-- Checks that a string has exactly the shape `YYYY-MM-DD HH:MM:SS`:
nineteen characters, decimal digits in the numeric positions and the three
separators in theirs — i.e. that it parses as that timestamp format. -/
def isTimestampShape (s : String) : Bool :=
  match s.data with
  | [c1, c2, c3, c4, c5, c6, c7, c8, c9, c10, c11, c12, c13, c14, c15, c16, c17, c18, c19] =>
    isDigitChar c1 && isDigitChar c2 && isDigitChar c3 && isDigitChar c4 &&
    decide (c5 = '-') && isDigitChar c6 && isDigitChar c7 && decide (c8 = '-') &&
    isDigitChar c9 && isDigitChar c10 && decide (c11 = ' ') &&
    isDigitChar c12 && isDigitChar c13 && decide (c14 = ':') &&
    isDigitChar c15 && isDigitChar c16 && decide (c17 = ':') &&
    isDigitChar c18 && isDigitChar c19
  | _ => false

/-- Splitting a character list on a separator character, the spec's recovery
operation for the `"{id}|{timestamp}"` descriptor. -/
def splitOnChar (sep : Char) : List Char → List (List Char)
  | [] => [[]]
  | c :: rest =>
    if c = sep then [] :: splitOnChar sep rest
    else
      match splitOnChar sep rest with
      | [] => [[c]]
      | grp :: grps => (c :: grp) :: grps

/-- Splitting a string on the `|` separator. -/
def splitBar (s : String) : List String :=
  (splitOnChar '|' s.data).map String.mk

/-- `RDS::describe_instances`: keep the instances that report no cluster
identifier and read each survivor's instance identifier through `.unwrap()`. -/
def describe_instances (resp : Except String (List DbInstance)) : Except RunErr (List String) :=
  match resp with
  | Except.error e => Except.error (RunErr.service e)
  | Except.ok instances =>
    mapUnwrap (fun db => optUnwrap db.db_instance_identifier)
      (instances.filter (fun db => db.db_cluster_identifier.isNone))

/-- `RDS::describe_clusters`: read every cluster's identifier through
`.unwrap()`. -/
def describe_clusters (resp : Except String (List (Option String))) : Except RunErr (List String) :=
  match resp with
  | Except.error e => Except.error (RunErr.service e)
  | Except.ok clusters => mapUnwrap optUnwrap clusters

/-- Formatting of one snapshot record in `RDS::describe_db_cluster_snapshots`:
the snapshot identifier and the creation time are both read through
`.unwrap()`, then the display descriptor `"{id}|{timestamp}"` is built. -/
def formatSnapshotRec (s : SnapshotRec) : Except RunErr String :=
  match s.db_cluster_snapshot_identifier with
  | none => Except.error RunErr.panicked
  | some sid =>
    match s.snapshot_create_time with
    | none => Except.error RunErr.panicked
    | some secs => Except.ok (formatSnapshot sid secs)

/-- `RDS::describe_db_cluster_snapshots` for one cluster: format every
record, the first malformed record failing the whole call. -/
def describe_db_cluster_snapshots (resp : Except String (List SnapshotRec)) :
    Except RunErr (List String) :=
  match resp with
  | Except.error e => Except.error (RunErr.service e)
  | Except.ok recs => mapUnwrap formatSnapshotRec recs

/-- Whether a run outcome is a success. -/
def exceptIsOk {ε α : Type} : Except ε α → Bool
  | Except.ok _ => true
  | Except.error _ => false

deriving instance DecidableEq for Except

/-- Model of `inquire::Select::prompt` (external prompt layer, modelled from
the spec): an empty option list fails with a configuration error and shows no
prompt; otherwise the prompt is shown and the operator picks one of the
presented labels or cancels (an answer that is not among the options cannot
physically be produced by the widget and is mapped to a distinct error). -/
def promptSelectModel (prompt : String) (choices : List String) (a : Answer) :
    List Event × Except RunErr String :=
  if choices.isEmpty then ([], Except.error RunErr.emptyOptions)
  else
    ([Event.promptShown prompt choices],
      match a with
      | Answer.choose s =>
        if s ∈ choices then Except.ok s else Except.error RunErr.badAnswer
      | Answer.cancel => Except.error RunErr.cancelled
      | Answer.confirmAns _ => Except.error RunErr.badAnswer)

/-- The post-processing of the program's `select`:
`choices.iter().position(|c| c == ans)` followed by `choices[index]`, fused
into returning the first element equal to the answer (`none` is the
`.unwrap()` panic case). -/
def positionLookup : List String → String → Option String
  | [], _ => none
  | c :: rest, ans => if c = ans then some c else positionLookup rest ans

/-- The program's `select` helper: run the prompt, then look the chosen
answer up in `choices` by position and return that element. -/
def select (prompt : String) (choices : List String) (a : Answer) :
    List Event × Except RunErr String :=
  let pr := promptSelectModel prompt choices a
  (pr.1,
    match pr.2 with
    | Except.error e => Except.error e
    | Except.ok ans =>
      match positionLookup choices ans with
      | some c => Except.ok c
      | none => Except.error RunErr.panicked)

/-- The program's `select_rds`. -/
def select_rds (identifiers : List String) (a : Answer) :
    List Event × Except RunErr String :=
  select "Please choose an RDS" identifiers a

/-- The program's `select_snapshot`. -/
def select_snapshot (snapshots : List String) (a : Answer) :
    List Event × Except RunErr String :=
  select "Select a snapshot to copy" snapshots a

/-- Display label of a key in `select_keys`: its alias when present, else its
raw id. -/
def labelOf (k : Key) : String :=
  match k.«alias» with
  | some al => al
  | none => k.id

/-- The program's `select_keys`: build the label-to-key `HashMap`, prompt over
its key set (in the run's arbitrary `HashMap::keys()` iteration order `ho`),
and return the id of the key bound to the chosen label. The source unwraps
the inner select, so cancellation panics there; both abort the run. -/
def select_keys (keys : List Key) (ho : List String → List String) (a : Answer) :
    List Event × Except RunErr String :=
  let entries := keys.map (fun k => (labelOf k, k))
  let sel := select "Choose a KMS key to use for snapshot" (ho (hmKeys entries)) a
  (sel.1,
    match sel.2 with
    | Except.error e => Except.error e
    | Except.ok ans =>
      match hmGet entries ans with
      | some k => Except.ok k.id
      | none => Except.error RunErr.panicked)

/-- The program's `confirm_use_exisitng_snapshot` (source spelling kept):
always prompts the yes/no question. -/
def confirm_use_exisitng_snapshot (a : Answer) : List Event × Except RunErr Bool :=
  ([Event.promptConfirm "Use an existing snapshot"],
    match a with
    | Answer.confirmAns b => Except.ok b
    | Answer.cancel => Except.error RunErr.cancelled
    | Answer.choose _ => Except.error RunErr.badAnswer)

/-- `KMS::list_keys`: join the alias and key fetches (the source unwraps the
alias result first), then run the pure classifier. -/
def list_keys_run (aliasResp : Except String (List AliasListEntry))
    (keyResp : Except String (List KeyListEntry)) : Except RunErr (List Key) :=
  match aliasResp with
  | Except.error e => Except.error (RunErr.service e)
  | Except.ok aliases =>
    match keyResp with
    | Except.error e => Except.error (RunErr.service e)
    | Except.ok keys => Except.ok (list_keys aliases keys)

/-- Stage 1 of `main`: resolve the resource identifier — an explicit value
wins, otherwise list instances or clusters per `--db-type` and prompt. -/
def resolveIdentifier (args : Args) (env : Env) (a : Answer) :
    List Event × Except RunErr String :=
  match args.db_identifier with
  | some id => ([], Except.ok id)
  | none =>
    match args.db_type with
    | DatabaseType.database =>
      match describe_instances env.instances with
      | Except.error e => ([Event.listInstances], Except.error e)
      | Except.ok ids =>
        let sel := select_rds ids a
        (Event.listInstances :: sel.1, sel.2)
    | DatabaseType.cluster =>
      match describe_clusters env.clusters with
      | Except.error e => ([Event.listClusters], Except.error e)
      | Except.ok ids =>
        let sel := select_rds ids a
        (Event.listClusters :: sel.1, sel.2)

/-- Stage 2 of `main`: resolve the KMS key id — an explicit value wins,
otherwise fetch keys and aliases, classify, and prompt. -/
def resolveKey (args : Args) (env : Env) (ho : List String → List String) (a : Answer) :
    List Event × Except RunErr String :=
  match args.kms_key_id with
  | some k => ([], Except.ok k)
  | none =>
    match list_keys_run env.aliases env.keys with
    | Except.error e => ([Event.listKeysAliases], Except.error e)
    | Except.ok keys =>
      let sel := select_keys keys ho a
      (Event.listKeysAliases :: sel.1, sel.2)

/-- Stage 4 of `main`: resolve the snapshot descriptor — an explicit value
wins, otherwise list the resolved resource's cluster snapshots and prompt. -/
def resolveSnapshot (args : Args) (env : Env) (identifier : String) (a : Answer) :
    List Event × Except RunErr String :=
  match args.snapshot_id with
  | some snap => ([], Except.ok snap)
  | none =>
    match describe_db_cluster_snapshots (env.snapshots identifier) with
    | Except.error e => ([Event.listSnapshots identifier], Except.error e)
    | Except.ok snaps =>
      let sel := select_snapshot snaps a
      (Event.listSnapshots identifier :: sel.1, sel.2)

/-- The whole of `main` after argument parsing: resource, key, reuse
confirmation and snapshot stages in source order. The reuse confirmation's
`Result` is stored and only unwrapped by the final `println!`, after the
snapshot stage — exactly as in the source. -/
def runMain (args : Args) (env : Env) (ho : List String → List String) (script : Script) :
    List Event × Except RunErr Resolved :=
  match resolveIdentifier args env script.rdsAnswer with
  | (t1, Except.error e) => (t1, Except.error e)
  | (t1, Except.ok identifier) =>
    match resolveKey args env ho script.keyAnswer with
    | (t2, Except.error e) => (t1 ++ t2, Except.error e)
    | (t2, Except.ok kid) =>
      let conf := confirm_use_exisitng_snapshot script.confirmAnswer
      match resolveSnapshot args env identifier script.snapAnswer with
      | (t4, Except.error e) => (t1 ++ t2 ++ conf.1 ++ t4, Except.error e)
      | (t4, Except.ok snap) =>
        match conf.2 with
        | Except.error e => (t1 ++ t2 ++ conf.1 ++ t4, Except.error e)
        | Except.ok b => (t1 ++ t2 ++ conf.1 ++ t4, Except.ok ⟨identifier, kid, b, snap⟩)

/-- The orchestration stage an event belongs to (selection prompts are told
apart by their prompt text). -/
def eventStage : Event → Nat
  | Event.listInstances => 1
  | Event.listClusters => 1
  | Event.listKeysAliases => 2
  | Event.listSnapshots _ => 4
  | Event.promptShown p _ =>
    if p = "Choose a KMS key to use for snapshot" then 2
    else if p = "Select a snapshot to copy" then 4
    else 1
  | Event.promptConfirm _ => 3

/-- A small concrete environment for closed checks: no instances, no
clusters, no keys, no aliases, one well-formed snapshot per cluster. -/
def envSmall : Env :=
  ⟨Except.ok [], Except.ok [], Except.ok [], Except.ok [],
    fun _ => Except.ok [⟨some "s1", some 0⟩]⟩

/-- A concrete environment exercising the full interactive flow. -/
def envFull : Env :=
  ⟨Except.ok [], Except.ok [some "c1"], Except.ok [⟨"k1"⟩],
    Except.ok [⟨"alias/a1", some "k1"⟩],
    fun _ => Except.ok [⟨some "s1", some 0⟩]⟩

/-- A concrete script matching `envFull`: choose the only candidate at every
prompt and confirm reuse. -/
def scriptFull : Script :=
  ⟨Answer.choose "c1", Answer.choose "alias/a1", Answer.confirmAns true,
    Answer.choose "s1|1970-01-01 00:00:00"⟩

theorem hmGet_mem {V : Type} {entries : List (String × V)} {k : String} {v : V}
    (h : hmGet entries k = some v) : (k, v) ∈ entries := by
  unfold hmGet at h
  cases hf : entries.reverse.find? (fun p => decide (p.1 = k)) with
  | none => rw [hf] at h; simp at h
  | some pr =>
    rw [hf] at h
    simp only [Option.map_some', Option.some.injEq] at h
    have hp := @List.find?_some (String × V) (fun p => decide (p.1 = k)) pr entries.reverse hf
    have hm : pr ∈ entries.reverse := List.mem_of_find?_eq_some hf
    rw [List.mem_reverse] at hm
    have hk : pr.1 = k := of_decide_eq_true hp
    subst hk
    subst h
    simpa using hm

theorem hmGet_eq_none {V : Type} {entries : List (String × V)} {k : String}
    (h : ∀ pr ∈ entries, pr.1 ≠ k) : hmGet entries k = none := by
  unfold hmGet
  rw [List.find?_eq_none.mpr]
  · rfl
  · intro pr hm
    simpa using h pr (List.mem_reverse.mp hm)

/-- C1: the classifier returns exactly the non-provider-managed keys of the
input, in input order, each carrying its matched alias (or no alias when
nothing matched); output ids that are distinct in the input stay distinct in
the output. The unconditional "no duplicate ids" part of the claim fails for
inputs that already repeat a key id (see the counterexample), so the
duplicate-freedom guarantee is stated under distinctness of the input ids. -/
theorem c1_list_keys_characterization (aliases : List AliasListEntry) (keys : List KeyListEntry) :
    list_keys aliases keys
      = (keys.filter (fun k => !providerManaged aliases k.key_id)).map
          (fun k => ⟨k.key_id, matchedAlias aliases k.key_id⟩)
    ∧ ((keys.map (fun k => k.key_id)).Nodup →
        ((list_keys aliases keys).map Key.id).Nodup) := by
  have heq : list_keys aliases keys
      = (keys.filter (fun k => !providerManaged aliases k.key_id)).map
          (fun k => ⟨k.key_id, matchedAlias aliases k.key_id⟩) := by
    induction keys with
    | nil => rfl
    | cons k ks ih =>
      simp only [list_keys, List.filterMap_cons, List.filter_cons] at *
      cases hal : hmGet (aliasEntries aliases) k.key_id with
      | none =>
        simp [classifyKey, providerManaged, matchedAlias, hal, ih]
      | some al =>
        cases hsw : al.alias_name.startsWith "alias/aws" with
        | true => simp [classifyKey, providerManaged, matchedAlias, hal, hsw, ih]
        | false => simp [classifyKey, providerManaged, matchedAlias, hal, hsw, ih]
  refine ⟨heq, fun hnd => ?_⟩
  rw [heq, List.map_map]
  have hcomp : (Key.id ∘ fun k => (⟨k.key_id, matchedAlias aliases k.key_id⟩ : Key))
      = fun (k : KeyListEntry) => k.key_id := rfl
  rw [hcomp]
  exact hnd.sublist (List.Sublist.map _ (List.filter_sublist _))

/-- C1 counterexample: on a key list that repeats an id, the classifier output
repeats the id too, refuting the claim's unconditional "no duplicate ids". -/
theorem c1_counterexample_duplicate_ids :
    list_keys [] [⟨"k"⟩, ⟨"k"⟩] = [⟨"k", none⟩, ⟨"k", none⟩]
    ∧ ¬ ((list_keys [] [⟨"k"⟩, ⟨"k"⟩]).map Key.id).Nodup := by
  constructor
  · rfl
  · decide

/-- Witness for C1: the duplicate-freedom guarantee applied at a concrete
distinct-id input. -/
theorem c1_list_keys_characterization_witness :
    ((list_keys [⟨"alias/my-key", some "k1"⟩, ⟨"alias/aws/rds", some "k2"⟩]
        [⟨"k1"⟩, ⟨"k2"⟩, ⟨"k3"⟩]).map Key.id).Nodup :=
  (c1_list_keys_characterization
      [⟨"alias/my-key", some "k1"⟩, ⟨"alias/aws/rds", some "k2"⟩]
      [⟨"k1"⟩, ⟨"k2"⟩, ⟨"k3"⟩]).2 (by decide)

/-- C9: a key with a non-empty id is never matched against the empty-string
bucket of the alias map: any alias the lookup returns for it really targets
that id, and when no alias targets the id the key is classified as
customer-managed with no alias. -/
theorem c9_empty_alias_bucket_never_matched (aliases : List AliasListEntry) (k : KeyListEntry)
    (h : k.key_id ≠ "") :
    (∀ al, hmGet (aliasEntries aliases) k.key_id = some al →
        al.target_key_id = some k.key_id)
    ∧ ((∀ al ∈ aliases, al.target_key_id ≠ some k.key_id) →
        classifyKey (aliasEntries aliases) k = some ⟨k.key_id, none⟩) := by
  constructor
  · intro al hal
    have hm := hmGet_mem hal
    simp only [aliasEntries, List.mem_map] at hm
    obtain ⟨al0, _, heq⟩ := hm
    have h1 : al0.target_key_id.getD "" = k.key_id := congrArg Prod.fst heq
    have h2 : al0 = al := congrArg Prod.snd heq
    subst h2
    cases ht : al0.target_key_id with
    | none => rw [ht] at h1; simp at h1; exact absurd h1.symm h
    | some t =>
      rw [ht] at h1
      simp only [Option.getD_some] at h1
      rw [h1]
  · intro hno
    have hnone : hmGet (aliasEntries aliases) k.key_id = none := by
      apply hmGet_eq_none
      intro pr hpr
      simp only [aliasEntries, List.mem_map] at hpr
      obtain ⟨al0, hal0, heq⟩ := hpr
      rw [← heq]
      cases ht : al0.target_key_id with
      | none => simpa using fun hcontra => h hcontra.symm
      | some t =>
        simp only [Option.getD_some]
        intro hcontra
        exact hno al0 hal0 (by rw [ht, hcontra])
    simp [classifyKey, hnone]

/-- Witness for C9: a dangling alias (no target id) does not attach to a real
key id. -/
theorem c9_empty_alias_bucket_never_matched_witness :
    classifyKey (aliasEntries [⟨"alias/orphan", none⟩]) ⟨"k1"⟩ = some ⟨"k1", none⟩ :=
  (c9_empty_alias_bucket_never_matched [⟨"alias/orphan", none⟩] ⟨"k1"⟩ (by decide)).2
    (by decide)

theorem splitOnChar_not_mem {sep : Char} {l : List Char} (h : sep ∉ l) :
    splitOnChar sep l = [l] := by
  induction l with
  | nil => rfl
  | cons c rest ih =>
    have hc : ¬(c = sep) := fun hcc => h (hcc ▸ List.mem_cons_self c rest)
    have hr : sep ∉ rest := fun hm => h (List.mem_cons_of_mem _ hm)
    simp only [splitOnChar, if_neg hc, ih hr]

theorem splitOnChar_append {sep : Char} {a : List Char} (b : List Char) (h : sep ∉ a) :
    splitOnChar sep (a ++ sep :: b) = a :: splitOnChar sep b := by
  induction a with
  | nil => simp [splitOnChar]
  | cons c rest ih =>
    have hc : ¬(c = sep) := fun hcc => h (hcc ▸ List.mem_cons_self c rest)
    have hr : sep ∉ rest := fun hm => h (List.mem_cons_of_mem _ hm)
    simp only [List.cons_append, splitOnChar, if_neg hc]
    have ih2 : splitOnChar sep (rest.append (sep :: b)) = rest :: splitOnChar sep b := ih hr
    rw [ih2]

theorem digitChar_getD_digit (k : Nat) (h : k < 10) :
    isDigitChar (digitChars.getD k '0') = true := by
  interval_cases k <;> decide

theorem isDigitChar_digitChar (n : Nat) : isDigitChar (digitChar n) = true :=
  digitChar_getD_digit (n % 10) (Nat.mod_lt n (by decide))

theorem digitChar_getD_ne_bar (k : Nat) (h : k < 10) :
    digitChars.getD k '0' ≠ '|' := by
  interval_cases k <;> decide

theorem digitChar_ne_bar (n : Nat) : digitChar n ≠ '|' :=
  digitChar_getD_ne_bar (n % 10) (Nat.mod_lt n (by decide))

theorem bar_ne_digitChar (n : Nat) : ¬('|' = digitChar n) :=
  fun h => digitChar_ne_bar n h.symm

theorem bar_not_mem_timestampChars (secs : Nat) : '|' ∉ timestampChars secs := by
  intro hmem
  simp [timestampChars, pad4c, pad2c, bar_ne_digitChar] at hmem

theorem isTimestampShape_timestampString (secs : Nat) :
    isTimestampShape (timestampString secs) = true := by
  simp [timestampString, isTimestampShape, timestampChars, pad4c, pad2c,
    isDigitChar_digitChar]

theorem data_append (s t : String) : (s ++ t).data = s.data ++ t.data := by
  cases s; cases t; rfl

/-- C4: formatting the claim's concrete descriptor yields exactly
`"snap-1|2023-01-02 03:04:05"`, and for every id containing no `|`, splitting
the formatted string on `|` recovers the id and a string of exactly the
parseable `YYYY-MM-DD HH:MM:SS` shape. -/
theorem c4_snapshot_format_roundtrip :
    formatSnapshot "snap-1" 1672628645 = "snap-1|2023-01-02 03:04:05"
    ∧ ∀ (sid : String) (secs : Nat), sid ≠ "" → '|' ∉ sid.data →
        splitBar (formatSnapshot sid secs) = [sid, timestampString secs]
        ∧ isTimestampShape (timestampString secs) = true := by
  constructor
  · decide
  · intro sid secs _ hbar
    refine ⟨?_, isTimestampShape_timestampString secs⟩
    have hdata : (formatSnapshot sid secs).data = sid.data ++ '|' :: timestampChars secs := by
      simp [formatSnapshot, data_append, timestampString]
    unfold splitBar
    rw [hdata, splitOnChar_append _ hbar,
      splitOnChar_not_mem (bar_not_mem_timestampChars secs)]
    simp [timestampString]

/-- Witness for C4: the round trip applied at the claim's concrete snapshot. -/
theorem c4_snapshot_format_roundtrip_witness :
    splitBar (formatSnapshot "snap-1" 1672628645)
      = ["snap-1", timestampString 1672628645]
    ∧ isTimestampShape (timestampString 1672628645) = true :=
  c4_snapshot_format_roundtrip.2 "snap-1" 1672628645 (by decide) (by decide)

theorem mapUnwrap_opt {α β : Type} (g : α → Option β) (l : List α)
    (h : ∀ a ∈ l, (g a).isSome) :
    mapUnwrap (fun a => optUnwrap (g a)) l = Except.ok (l.filterMap g) := by
  induction l with
  | nil => rfl
  | cons a rest ih =>
    obtain ⟨b, hb⟩ := Option.isSome_iff_exists.mp (h a (List.mem_cons_self a rest))
    have ho : optUnwrap (some b) = Except.ok b := rfl
    simp only [mapUnwrap, hb, ho, ih (fun x hx => h x (List.mem_cons_of_mem _ hx)),
      List.filterMap_cons]

theorem mapUnwrap_ok_forall {α β : Type} (f : α → Except RunErr β) (l : List α) (bs : List β)
    (h : mapUnwrap f l = Except.ok bs) : ∀ a ∈ l, ∃ b, f a = Except.ok b := by
  induction l generalizing bs with
  | nil => intro a ha; cases ha
  | cons x rest ih =>
    intro a ha
    simp only [mapUnwrap] at h
    cases hf : f x with
    | error e => rw [hf] at h; simp at h
    | ok b =>
      rw [hf] at h
      cases hr : mapUnwrap f rest with
      | error e => rw [hr] at h; simp at h
      | ok bs2 =>
        rcases List.mem_cons.mp ha with rfl | hmem
        · exact ⟨b, hf⟩
        · exact ih bs2 hr a hmem

/-- C5: on a successful instance listing, `describe_instances` returns
exactly the identifiers of the instances that report no cluster membership,
in service order; instances belonging to a cluster never appear. -/
theorem c5_describe_instances_filter (instances : List DbInstance)
    (h : ∀ db ∈ instances, db.db_cluster_identifier = none →
        (db.db_instance_identifier).isSome) :
    describe_instances (Except.ok instances)
      = Except.ok ((instances.filter (fun db => db.db_cluster_identifier.isNone)).filterMap
          (fun db => db.db_instance_identifier))
    ∧ ∀ s, (s ∈ (instances.filter (fun db => db.db_cluster_identifier.isNone)).filterMap
          (fun db => db.db_instance_identifier)
        ↔ ∃ db ∈ instances, db.db_cluster_identifier = none
            ∧ db.db_instance_identifier = some s) := by
  constructor
  · unfold describe_instances
    apply mapUnwrap_opt
    intro db hdb
    rw [List.mem_filter] at hdb
    exact h db hdb.1 (Option.isNone_iff_eq_none.mp hdb.2)
  · intro s
    simp [List.mem_filterMap, List.mem_filter, Option.isNone_iff_eq_none, and_assoc]

/-- Witness for C5: a standalone instance is kept, a cluster member dropped. -/
theorem c5_describe_instances_filter_witness :
    describe_instances (Except.ok [⟨some "i1", none⟩, ⟨some "i2", some "c"⟩])
      = Except.ok ["i1"] :=
  ((c5_describe_instances_filter [⟨some "i1", none⟩, ⟨some "i2", some "c"⟩]
      (by decide)).1).trans (by decide)

/-- C7: a snapshot record without a creation timestamp makes the whole
listing call fail — no record is skipped and no list at all is returned. -/
theorem c7_missing_create_time_fatal (recs : List SnapshotRec)
    (h : ∃ r ∈ recs, r.snapshot_create_time = none) :
    exceptIsOk (describe_db_cluster_snapshots (Except.ok recs)) = false := by
  obtain ⟨r, hrec, hnone⟩ := h
  simp only [describe_db_cluster_snapshots]
  cases hm : mapUnwrap formatSnapshotRec recs with
  | error e => rfl
  | ok bs =>
    exfalso
    obtain ⟨b, hb⟩ := mapUnwrap_ok_forall _ _ _ hm r hrec
    unfold formatSnapshotRec at hb
    cases hid : r.db_cluster_snapshot_identifier with
    | none => rw [hid] at hb; simp at hb
    | some sid => rw [hid, hnone] at hb; simp at hb

/-- Witness for C7: one record with a missing creation time fails the call. -/
theorem c7_missing_create_time_fatal_witness :
    exceptIsOk (describe_db_cluster_snapshots (Except.ok [⟨some "s1", none⟩])) = false :=
  c7_missing_create_time_fatal [⟨some "s1", none⟩] ⟨⟨some "s1", none⟩, by decide, rfl⟩

theorem positionLookup_eq_some {choices : List String} {ans c : String}
    (h : positionLookup choices ans = some c) : c = ans ∧ c ∈ choices := by
  induction choices with
  | nil => cases h
  | cons x rest ih =>
    by_cases hx : x = ans
    · simp only [positionLookup, if_pos hx, Option.some.injEq] at h
      subst h
      exact ⟨hx, List.mem_cons_self _ _⟩
    · simp only [positionLookup, if_neg hx] at h
      obtain ⟨h1, h2⟩ := ih h
      exact ⟨h1, List.mem_cons_of_mem _ h2⟩

theorem positionLookup_self {choices : List String} {ans : String} (h : ans ∈ choices) :
    positionLookup choices ans = some ans := by
  induction choices with
  | nil => cases h
  | cons x rest ih =>
    by_cases hx : x = ans
    · simp [positionLookup, hx]
    · rcases List.mem_cons.mp h with h1 | h2
      · exact absurd h1.symm hx
      · simp [positionLookup, hx, ih h2]

theorem promptSelectModel_ok {q : String} {choices : List String} {a : Answer} {s : String}
    (h : (promptSelectModel q choices a).2 = Except.ok s) :
    s ∈ choices ∧ a = Answer.choose s := by
  by_cases hemp : choices.isEmpty
  · simp [promptSelectModel, hemp] at h
  · cases a with
    | choose lbl =>
      by_cases hmem : lbl ∈ choices
      · simp only [promptSelectModel, hemp, if_false, Bool.false_eq_true, if_pos hmem] at h
        simp at h
        subst h
        exact ⟨hmem, rfl⟩
      · simp [promptSelectModel, hemp, hmem] at h
    | confirmAns b => simp [promptSelectModel, hemp] at h
    | cancel => simp [promptSelectModel, hemp] at h

theorem select_ok {q : String} {choices : List String} {a : Answer} {s : String}
    (h : (select q choices a).2 = Except.ok s) :
    s ∈ choices ∧ a = Answer.choose s
    ∧ (promptSelectModel q choices a).2 = Except.ok s := by
  simp only [select] at h
  cases hpr : (promptSelectModel q choices a).2 with
  | error e => simp only [hpr] at h; simp at h
  | ok ans =>
    simp only [hpr] at h
    cases hpos : positionLookup choices ans with
    | none => simp only [hpos] at h; simp at h
    | some c =>
      simp only [hpos] at h
      simp at h
      subst h
      obtain ⟨hca, hcm⟩ := positionLookup_eq_some hpos
      obtain ⟨hansm, hach⟩ := promptSelectModel_ok hpr
      subst hca
      exact ⟨hcm, hach, rfl⟩

theorem select_ok_of_mem (q : String) {choices : List String} {s : String} (h : s ∈ choices) :
    (select q choices (Answer.choose s)).2 = Except.ok s := by
  have hemp : choices.isEmpty = false := by
    cases choices with
    | nil => cases h
    | cons x rest => rfl
  simp [select, promptSelectModel, hemp, h, positionLookup_self h]

theorem select_keys_ok {keys : List Key} {ho : List String → List String} {a : Answer}
    {i : String} (h : (select_keys keys ho a).2 = Except.ok i) :
    ∃ k, k ∈ keys ∧ k.id = i ∧ a = Answer.choose (labelOf k) := by
  simp only [select_keys] at h
  cases hsel : (select "Choose a KMS key to use for snapshot"
      (ho (hmKeys (keys.map fun k => (labelOf k, k)))) a).2 with
  | error e => simp only [hsel] at h; simp at h
  | ok ans =>
    simp only [hsel] at h
    cases hget : hmGet (keys.map fun k => (labelOf k, k)) ans with
    | none => simp only [hget] at h; simp at h
    | some k =>
      simp only [hget] at h
      simp at h
      have hmem := hmGet_mem hget
      simp only [List.mem_map] at hmem
      obtain ⟨k0, hk0, heq⟩ := hmem
      have h1 : labelOf k0 = ans := congrArg Prod.fst heq
      have h2 : k0 = k := congrArg Prod.snd heq
      subst h2
      obtain ⟨-, hach, -⟩ := select_ok hsel
      exact ⟨k0, hk0, h, by rw [hach, h1]⟩

/-- C10: a successful `select` returns a member of its input choice list,
namely the very label the prompt layer reported chosen; a successful
`select_keys` returns the id of some input key whose display label (alias if
present, else raw id) is the chosen label. -/
theorem c10_selection_from_candidates (q : String) (choices : List String)
    (keys : List Key) (ho : List String → List String) (a : Answer) :
    (∀ s, (select q choices a).2 = Except.ok s →
        s ∈ choices ∧ (promptSelectModel q choices a).2 = Except.ok s)
    ∧ (∀ i, (select_keys keys ho a).2 = Except.ok i →
        ∃ k, k ∈ keys ∧ k.id = i ∧ a = Answer.choose (labelOf k)) :=
  ⟨fun _ h => ⟨(select_ok h).1, (select_ok h).2.2⟩, fun _ h => select_keys_ok h⟩

/-- Witness for C10: selecting `"x"` out of `["x", "y"]`. -/
theorem c10_selection_from_candidates_witness :
    "x" ∈ ["x", "y"]
    ∧ (promptSelectModel "Please choose an RDS" ["x", "y"] (Answer.choose "x")).2
        = Except.ok "x" :=
  (c10_selection_from_candidates "Please choose an RDS" ["x", "y"] [] id
      (Answer.choose "x")).1 "x" (by decide)

theorem select_snd_perm {l1 l2 : List String} (q : String) (a : Answer)
    (hp : l1.Perm l2) : (select q l1 a).2 = (select q l2 a).2 := by
  have hemp : l1.isEmpty = l2.isEmpty := by
    cases l1 <;> cases l2 <;> simp_all
  by_cases he : l1.isEmpty = true
  · have he2 : l2.isEmpty = true := hemp ▸ he
    simp [select, promptSelectModel, he, he2]
  · have he2 : ¬l2.isEmpty = true := hemp ▸ he
    cases a with
    | choose s =>
      by_cases hm : s ∈ l1
      · rw [select_ok_of_mem q hm, select_ok_of_mem q (hp.mem_iff.mp hm)]
      · have hm2 : s ∉ l2 := fun hx => hm (hp.mem_iff.mpr hx)
        simp [select, promptSelectModel, he, he2, hm, hm2]
    | cancel => simp [select, promptSelectModel, he, he2]
    | confirmAns b => simp [select, promptSelectModel, he, he2]

theorem select_keys_snd_ho (keys : List Key) (ho1 ho2 : List String → List String)
    (a : Answer) (h1 : ∀ l, (ho1 l).Perm l) (h2 : ∀ l, (ho2 l).Perm l) :
    (select_keys keys ho1 a).2 = (select_keys keys ho2 a).2 := by
  simp only [select_keys]
  rw [select_snd_perm "Choose a KMS key to use for snapshot" a
    ((h1 (hmKeys (keys.map fun k => (labelOf k, k)))).trans
      (h2 (hmKeys (keys.map fun k => (labelOf k, k)))).symm)]

theorem resolveKey_snd_ho (args : Args) (env : Env) (ho1 ho2 : List String → List String)
    (a : Answer) (h1 : ∀ l, (ho1 l).Perm l) (h2 : ∀ l, (ho2 l).Perm l) :
    (resolveKey args env ho1 a).2 = (resolveKey args env ho2 a).2 := by
  cases hkk : args.kms_key_id with
  | some k => simp [resolveKey, hkk]
  | none =>
    cases hlk : list_keys_run env.aliases env.keys with
    | error e => simp [resolveKey, hkk, hlk]
    | ok keys =>
      simp only [resolveKey, hkk, hlk]
      exact select_keys_snd_ho keys ho1 ho2 a h1 h2

theorem runMain_snd_ho (args : Args) (env : Env) (ho1 ho2 : List String → List String)
    (script : Script) (h1 : ∀ l, (ho1 l).Perm l) (h2 : ∀ l, (ho2 l).Perm l) :
    (runMain args env ho1 script).2 = (runMain args env ho2 script).2 := by
  cases hs1 : resolveIdentifier args env script.rdsAnswer with
  | mk t1 r1 =>
    cases r1 with
    | error e => simp [runMain, hs1]
    | ok rid =>
      have hk := resolveKey_snd_ho args env ho1 ho2 script.keyAnswer h1 h2
      cases hk1 : resolveKey args env ho1 script.keyAnswer with
      | mk t2 r2 =>
        cases hk2 : resolveKey args env ho2 script.keyAnswer with
        | mk t2b r2b =>
          rw [hk1, hk2] at hk
          simp at hk
          subst hk
          cases r2 with
          | error e => simp [runMain, hs1, hk1, hk2]
          | ok kid =>
            cases hs4 : resolveSnapshot args env rid script.snapAnswer with
            | mk t4 r4 =>
              cases r4 with
              | error e => simp [runMain, hs1, hk1, hk2, hs4]
              | ok snap =>
                cases hc : (confirm_use_exisitng_snapshot script.confirmAnswer).2 with
                | error e => simp [runMain, hs1, hk1, hk2, hs4, hc]
                | ok b => simp [runMain, hs1, hk1, hk2, hs4, hc]

/-- C8: two runs over identical service responses, with no explicit
overrides and the same scripted prompt choices (same chosen labels, same
yes/no answer), produce identical Resolved Parameters outcomes — even though
the key prompt's label ordering (the `HashMap::keys()` iteration order `ho`)
may differ arbitrarily between the two runs. -/
theorem c8_resolution_idempotent (args : Args) (env : Env) (script : Script)
    (ho1 ho2 : List String → List String)
    (hnd : args.db_identifier = none) (hnk : args.kms_key_id = none)
    (hns : args.snapshot_id = none)
    (h1 : ∀ l, (ho1 l).Perm l) (h2 : ∀ l, (ho2 l).Perm l) :
    (runMain args env ho1 script).2 = (runMain args env ho2 script).2 :=
  runMain_snd_ho args env ho1 ho2 script h1 h2

/-- Witness for C8: the full interactive flow run once with the identity
label order and once with the reversed one. -/
theorem c8_resolution_idempotent_witness :
    (runMain ⟨none, none, DatabaseType.cluster, none⟩ envFull id scriptFull).2
      = (runMain ⟨none, none, DatabaseType.cluster, none⟩ envFull List.reverse scriptFull).2 :=
  c8_resolution_idempotent ⟨none, none, DatabaseType.cluster, none⟩ envFull scriptFull
    id List.reverse rfl rfl rfl (fun l => List.Perm.refl l) (fun l => l.reverse_perm)

/-- C3: with the resource identifier, key id and snapshot id all supplied
explicitly, the run's only event is the reuse-confirmation prompt — no
listing call and no selection prompt occurs for the three fields — and the
output tuple carries the three supplied values verbatim. -/
theorem c3_explicit_short_circuit (env : Env) (ho : List String → List String)
    (script : Script) (dbt : DatabaseType) (a b c : String) :
    (runMain ⟨some a, some b, dbt, some c⟩ env ho script).1
      = [Event.promptConfirm "Use an existing snapshot"]
    ∧ (∀ r, (runMain ⟨some a, some b, dbt, some c⟩ env ho script).2 = Except.ok r →
        r.identifier = a ∧ r.kms_key_id = b ∧ r.snapshot = c)
    ∧ (∀ bb, script.confirmAnswer = Answer.confirmAns bb →
        runMain ⟨some a, some b, dbt, some c⟩ env ho script
          = ([Event.promptConfirm "Use an existing snapshot"],
             Except.ok ⟨a, b, bb, c⟩)) := by
  refine ⟨?_, ?_, ?_⟩
  · cases hca : script.confirmAnswer with
    | choose s =>
      simp [runMain, resolveIdentifier, resolveKey, resolveSnapshot,
        confirm_use_exisitng_snapshot, hca]
    | confirmAns bb =>
      simp [runMain, resolveIdentifier, resolveKey, resolveSnapshot,
        confirm_use_exisitng_snapshot, hca]
    | cancel =>
      simp [runMain, resolveIdentifier, resolveKey, resolveSnapshot,
        confirm_use_exisitng_snapshot, hca]
  · intro r hr
    cases hca : script.confirmAnswer with
    | choose s =>
      simp [runMain, resolveIdentifier, resolveKey, resolveSnapshot,
        confirm_use_exisitng_snapshot, hca] at hr
    | confirmAns bb =>
      simp [runMain, resolveIdentifier, resolveKey, resolveSnapshot,
        confirm_use_exisitng_snapshot, hca] at hr
      rw [← hr]
      exact ⟨rfl, rfl, rfl⟩
    | cancel =>
      simp [runMain, resolveIdentifier, resolveKey, resolveSnapshot,
        confirm_use_exisitng_snapshot, hca] at hr
  · intro bb hca
    simp [runMain, resolveIdentifier, resolveKey, resolveSnapshot,
      confirm_use_exisitng_snapshot, hca]

/-- Witness for C3: explicit values pass through verbatim. -/
theorem c3_explicit_short_circuit_witness :
    runMain ⟨some "db-1", some "key-1", DatabaseType.database, some "snap-9"⟩ envSmall id
        ⟨Answer.cancel, Answer.cancel, Answer.confirmAns true, Answer.cancel⟩
      = ([Event.promptConfirm "Use an existing snapshot"],
         Except.ok ⟨"db-1", "key-1", true, "snap-9"⟩) :=
  (c3_explicit_short_circuit envSmall id
      ⟨Answer.cancel, Answer.cancel, Answer.confirmAns true, Answer.cancel⟩
      DatabaseType.database "db-1" "key-1" "snap-9").2.2 true rfl

theorem select_events (q : String) (choices : List String) (a : Answer) :
    (select q choices a).1
      = if choices.isEmpty then [] else [Event.promptShown q choices] := by
  by_cases h : choices.isEmpty <;> simp [select, promptSelectModel, h]

theorem resolveIdentifier_events (args : Args) (env : Env) (a : Answer) :
    ∀ ev ∈ (resolveIdentifier args env a).1, eventStage ev = 1 := by
  intro ev hev
  cases hdi : args.db_identifier with
  | some id => simp [resolveIdentifier, hdi] at hev
  | none =>
    cases hdt : args.db_type with
    | database =>
      cases hdesc : describe_instances env.instances with
      | error e =>
        simp [resolveIdentifier, hdi, hdt, hdesc] at hev
        subst hev; rfl
      | ok ids =>
        simp only [resolveIdentifier, hdi, hdt, hdesc, select_rds] at hev
        rcases List.mem_cons.mp hev with h1 | h2
        · subst h1; rfl
        · rw [select_events] at h2
          by_cases hemp : ids.isEmpty
          · simp [hemp] at h2
          · simp [hemp] at h2
            subst h2
            simp [eventStage]
    | cluster =>
      cases hdesc : describe_clusters env.clusters with
      | error e =>
        simp [resolveIdentifier, hdi, hdt, hdesc] at hev
        subst hev; rfl
      | ok ids =>
        simp only [resolveIdentifier, hdi, hdt, hdesc, select_rds] at hev
        rcases List.mem_cons.mp hev with h1 | h2
        · subst h1; rfl
        · rw [select_events] at h2
          by_cases hemp : ids.isEmpty
          · simp [hemp] at h2
          · simp [hemp] at h2
            subst h2
            simp [eventStage]

theorem resolveKey_events (args : Args) (env : Env) (ho : List String → List String)
    (a : Answer) : ∀ ev ∈ (resolveKey args env ho a).1, eventStage ev = 2 := by
  intro ev hev
  cases hkk : args.kms_key_id with
  | some k => simp [resolveKey, hkk] at hev
  | none =>
    cases hlk : list_keys_run env.aliases env.keys with
    | error e =>
      simp [resolveKey, hkk, hlk] at hev
      subst hev; rfl
    | ok keys =>
      simp only [resolveKey, hkk, hlk, select_keys] at hev
      rcases List.mem_cons.mp hev with h1 | h2
      · subst h1; rfl
      · rw [select_events] at h2
        by_cases hemp : (ho (hmKeys (keys.map fun k => (labelOf k, k)))).isEmpty
        · simp [hemp] at h2
        · simp [hemp] at h2
          subst h2
          simp [eventStage]

theorem resolveSnapshot_events (args : Args) (env : Env) (rid : String) (a : Answer) :
    ∀ ev ∈ (resolveSnapshot args env rid a).1, eventStage ev = 4 := by
  intro ev hev
  cases hsi : args.snapshot_id with
  | some snap => simp [resolveSnapshot, hsi] at hev
  | none =>
    cases hdesc : describe_db_cluster_snapshots (env.snapshots rid) with
    | error e =>
      simp [resolveSnapshot, hsi, hdesc] at hev
      subst hev; rfl
    | ok snaps =>
      simp only [resolveSnapshot, hsi, hdesc, select_snapshot] at hev
      rcases List.mem_cons.mp hev with h1 | h2
      · subst h1; rfl
      · rw [select_events] at h2
        by_cases hemp : snaps.isEmpty
        · simp [hemp] at h2
        · simp [hemp] at h2
          subst h2
          simp [eventStage]

/-- C2 (amended): a failure of the resource stage halts the run at once with
that error and a trace of stage-1 events only; a failure of the key stage
halts with that error and a trace of stage ≤ 2 events only; a failure of the
snapshot stage surfaces as the run's error; and a failed reuse confirmation
always prevents a Resolved tuple from being emitted. Unlike the original
claim, the reuse-confirmation's failure is deferred: the snapshot stage still
lists and prompts before that error surfaces (see the counterexample). -/
theorem c2_orchestrator_halts_amended (args : Args) (env : Env)
    (ho : List String → List String) (script : Script) :
    (∀ t e, resolveIdentifier args env script.rdsAnswer = (t, Except.error e) →
        runMain args env ho script = (t, Except.error e)
        ∧ ∀ ev ∈ t, eventStage ev = 1)
    ∧ (∀ t1 rid t2 e,
        resolveIdentifier args env script.rdsAnswer = (t1, Except.ok rid) →
        resolveKey args env ho script.keyAnswer = (t2, Except.error e) →
        runMain args env ho script = (t1 ++ t2, Except.error e)
        ∧ ∀ ev ∈ t1 ++ t2, eventStage ev ≤ 2)
    ∧ (∀ t1 rid t2 kid t4 e,
        resolveIdentifier args env script.rdsAnswer = (t1, Except.ok rid) →
        resolveKey args env ho script.keyAnswer = (t2, Except.ok kid) →
        resolveSnapshot args env rid script.snapAnswer = (t4, Except.error e) →
        (runMain args env ho script).2 = Except.error e)
    ∧ (∀ e, (confirm_use_exisitng_snapshot script.confirmAnswer).2 = Except.error e →
        ∀ r, (runMain args env ho script).2 ≠ Except.ok r) := by
  refine ⟨?_, ?_, ?_, ?_⟩
  · intro t e h
    refine ⟨by simp [runMain, h], ?_⟩
    intro ev hev
    exact resolveIdentifier_events args env script.rdsAnswer ev (by rw [h]; exact hev)
  · intro t1 rid t2 e h1 h2
    refine ⟨by simp [runMain, h1, h2], ?_⟩
    intro ev hev
    rcases List.mem_append.mp hev with hm | hm
    · have := resolveIdentifier_events args env script.rdsAnswer ev (by rw [h1]; exact hm)
      omega
    · have := resolveKey_events args env ho script.keyAnswer ev (by rw [h2]; exact hm)
      omega
  · intro t1 rid t2 kid t4 e h1 h2 h4
    simp [runMain, h1, h2, h4]
  · intro e hce r
    cases h1 : resolveIdentifier args env script.rdsAnswer with
    | mk t1 r1 =>
      cases r1 with
      | error e1 => simp [runMain, h1]
      | ok rid =>
        cases h2 : resolveKey args env ho script.keyAnswer with
        | mk t2 r2 =>
          cases r2 with
          | error e2 => simp [runMain, h1, h2]
          | ok kid =>
            cases h4 : resolveSnapshot args env rid script.snapAnswer with
            | mk t4 r4 =>
              cases r4 with
              | error e4 => simp [runMain, h1, h2, h4]
              | ok snap => simp [runMain, h1, h2, h4, hce]

/-- C2 counterexample: with explicit resource and key identifiers, a
cancelled reuse confirmation (stage 3) does not halt the run — the snapshot
stage still lists and prompts afterwards, refuting "no later stage's listing
or prompt runs after an earlier stage has failed". -/
theorem c2_counterexample_confirm_failure_not_halting :
    runMain ⟨some "db", some "key", DatabaseType.cluster, none⟩ envSmall id
        ⟨Answer.cancel, Answer.cancel, Answer.cancel,
          Answer.choose "s1|1970-01-01 00:00:00"⟩
      = ([Event.promptConfirm "Use an existing snapshot",
          Event.listSnapshots "db",
          Event.promptShown "Select a snapshot to copy" ["s1|1970-01-01 00:00:00"]],
         Except.error RunErr.cancelled)
    ∧ Event.listSnapshots "db" ∈
        (runMain ⟨some "db", some "key", DatabaseType.cluster, none⟩ envSmall id
          ⟨Answer.cancel, Answer.cancel, Answer.cancel,
            Answer.choose "s1|1970-01-01 00:00:00"⟩).1
    ∧ eventStage (Event.listSnapshots "db") = 4
    ∧ eventStage (Event.promptConfirm "Use an existing snapshot") = 3 :=
  ⟨by decide, by decide, rfl, rfl⟩

/-- Witness for C2: a stage-1 failure (empty instance list) halts the run
with only the stage-1 listing event. -/
theorem c2_orchestrator_halts_amended_witness :
    runMain ⟨none, some "key", DatabaseType.database, some "snap"⟩ envSmall id
        ⟨Answer.cancel, Answer.cancel, Answer.cancel, Answer.cancel⟩
      = ([Event.listInstances], Except.error RunErr.emptyOptions) :=
  ((c2_orchestrator_halts_amended ⟨none, some "key", DatabaseType.database, some "snap"⟩
      envSmall id ⟨Answer.cancel, Answer.cancel, Answer.cancel, Answer.cancel⟩).1
    [Event.listInstances] RunErr.emptyOptions (by decide)).1

theorem select_prompt_nonempty {q : String} {choices : List String} {a : Answer}
    {p : String} {cs : List String}
    (h : Event.promptShown p cs ∈ (select q choices a).1) : cs ≠ [] := by
  rw [select_events] at h
  by_cases hemp : choices.isEmpty
  · simp [hemp] at h
  · simp [hemp] at h
    obtain ⟨hq, hcs⟩ := h
    intro hnil
    exact hemp (by rw [← hcs, hnil]; rfl)

theorem resolveIdentifier_prompt_nonempty (args : Args) (env : Env) (a : Answer)
    {p : String} {cs : List String}
    (h : Event.promptShown p cs ∈ (resolveIdentifier args env a).1) : cs ≠ [] := by
  cases hdi : args.db_identifier with
  | some id => simp [resolveIdentifier, hdi] at h
  | none =>
    cases hdt : args.db_type with
    | database =>
      cases hdesc : describe_instances env.instances with
      | error e => simp [resolveIdentifier, hdi, hdt, hdesc] at h
      | ok ids =>
        simp only [resolveIdentifier, hdi, hdt, hdesc, select_rds] at h
        rcases List.mem_cons.mp h with h1 | h2
        · exact absurd h1 (by simp)
        · exact select_prompt_nonempty h2
    | cluster =>
      cases hdesc : describe_clusters env.clusters with
      | error e => simp [resolveIdentifier, hdi, hdt, hdesc] at h
      | ok ids =>
        simp only [resolveIdentifier, hdi, hdt, hdesc, select_rds] at h
        rcases List.mem_cons.mp h with h1 | h2
        · exact absurd h1 (by simp)
        · exact select_prompt_nonempty h2

theorem resolveKey_prompt_nonempty (args : Args) (env : Env)
    (ho : List String → List String) (a : Answer) {p : String} {cs : List String}
    (h : Event.promptShown p cs ∈ (resolveKey args env ho a).1) : cs ≠ [] := by
  cases hkk : args.kms_key_id with
  | some k => simp [resolveKey, hkk] at h
  | none =>
    cases hlk : list_keys_run env.aliases env.keys with
    | error e => simp [resolveKey, hkk, hlk] at h
    | ok keys =>
      simp only [resolveKey, hkk, hlk, select_keys] at h
      rcases List.mem_cons.mp h with h1 | h2
      · exact absurd h1 (by simp)
      · exact select_prompt_nonempty h2

theorem resolveSnapshot_prompt_nonempty (args : Args) (env : Env) (rid : String)
    (a : Answer) {p : String} {cs : List String}
    (h : Event.promptShown p cs ∈ (resolveSnapshot args env rid a).1) : cs ≠ [] := by
  cases hsi : args.snapshot_id with
  | some snap => simp [resolveSnapshot, hsi] at h
  | none =>
    cases hdesc : describe_db_cluster_snapshots (env.snapshots rid) with
    | error e => simp [resolveSnapshot, hsi, hdesc] at h
    | ok snaps =>
      simp only [resolveSnapshot, hsi, hdesc, select_snapshot] at h
      rcases List.mem_cons.mp h with h1 | h2
      · exact absurd h1 (by simp)
      · exact select_prompt_nonempty h2

theorem runMain_trace_mem (args : Args) (env : Env) (ho : List String → List String)
    (script : Script) (ev : Event) (h : ev ∈ (runMain args env ho script).1) :
    ev ∈ (resolveIdentifier args env script.rdsAnswer).1
    ∨ ev ∈ (resolveKey args env ho script.keyAnswer).1
    ∨ ev ∈ (confirm_use_exisitng_snapshot script.confirmAnswer).1
    ∨ ∃ rid, ev ∈ (resolveSnapshot args env rid script.snapAnswer).1 := by
  cases h1 : resolveIdentifier args env script.rdsAnswer with
  | mk t1 r1 =>
    cases r1 with
    | error e =>
      simp only [runMain, h1] at h
      exact Or.inl h
    | ok rid =>
      cases h2 : resolveKey args env ho script.keyAnswer with
      | mk t2 r2 =>
        cases r2 with
        | error e =>
          simp only [runMain, h1, h2] at h
          rcases List.mem_append.mp h with hm | hm
          · exact Or.inl hm
          · exact Or.inr (Or.inl hm)
        | ok kid =>
          cases h4 : resolveSnapshot args env rid script.snapAnswer with
          | mk t4 r4 =>
            have hsplit : ev ∈ t1 ++ t2
                ++ (confirm_use_exisitng_snapshot script.confirmAnswer).1 ++ t4 := by
              cases r4 with
              | error e => simpa only [runMain, h1, h2, h4] using h
              | ok snap =>
                cases hc : (confirm_use_exisitng_snapshot script.confirmAnswer).2 with
                | error e => simpa only [runMain, h1, h2, h4, hc] using h
                | ok b => simpa only [runMain, h1, h2, h4, hc] using h
            rcases List.mem_append.mp hsplit with hm | hm
            · rcases List.mem_append.mp hm with hmm | hmm
              · rcases List.mem_append.mp hmm with hmmm | hmmm
                · exact Or.inl hmmm
                · exact Or.inr (Or.inl hmmm)
              · exact Or.inr (Or.inr (Or.inl hmm))
            · exact Or.inr (Or.inr (Or.inr ⟨rid, by rw [h4]; exact hm⟩))

/-- C6: resolving from an empty candidate set is fatal and silent — an empty
instance or cluster listing fails resource resolution with the
empty-candidate-set error and only the listing event; an empty snapshot
listing does the same for snapshot resolution, which also surfaces as the
run's error; and no selection prompt over an empty candidate list is ever
presented in any run. -/
theorem c6_empty_candidates_fatal (args : Args) (env : Env)
    (ho : List String → List String) (script : Script) :
    (args.db_identifier = none → args.db_type = DatabaseType.database →
        env.instances = Except.ok [] →
        resolveIdentifier args env script.rdsAnswer
          = ([Event.listInstances], Except.error RunErr.emptyOptions))
    ∧ (args.db_identifier = none → args.db_type = DatabaseType.cluster →
        env.clusters = Except.ok [] →
        resolveIdentifier args env script.rdsAnswer
          = ([Event.listClusters], Except.error RunErr.emptyOptions))
    ∧ (∀ rid, args.snapshot_id = none → env.snapshots rid = Except.ok [] →
        resolveSnapshot args env rid script.snapAnswer
          = ([Event.listSnapshots rid], Except.error RunErr.emptyOptions))
    ∧ (∀ t1 rid t2 kid,
        resolveIdentifier args env script.rdsAnswer = (t1, Except.ok rid) →
        resolveKey args env ho script.keyAnswer = (t2, Except.ok kid) →
        args.snapshot_id = none → env.snapshots rid = Except.ok [] →
        (runMain args env ho script).2 = Except.error RunErr.emptyOptions)
    ∧ (∀ p cs, Event.promptShown p cs ∈ (runMain args env ho script).1 → cs ≠ []) := by
  have hsnap : ∀ rid, args.snapshot_id = none → env.snapshots rid = Except.ok [] →
      resolveSnapshot args env rid script.snapAnswer
        = ([Event.listSnapshots rid], Except.error RunErr.emptyOptions) := by
    intro rid h1 h2
    simp [resolveSnapshot, h1, h2, describe_db_cluster_snapshots, mapUnwrap,
      select_snapshot, select, promptSelectModel]
  refine ⟨?_, ?_, hsnap, ?_, ?_⟩
  · intro h1 h2 h3
    simp [resolveIdentifier, h1, h2, h3, describe_instances, mapUnwrap,
      select_rds, select, promptSelectModel]
  · intro h1 h2 h3
    simp [resolveIdentifier, h1, h2, h3, describe_clusters, mapUnwrap,
      select_rds, select, promptSelectModel]
  · intro t1 rid t2 kid hi hk h1 h2
    simp [runMain, hi, hk, hsnap rid h1 h2]
  · intro p cs hmem
    rcases runMain_trace_mem args env ho script _ hmem with h | h | h | ⟨rid, h⟩
    · exact resolveIdentifier_prompt_nonempty args env _ h
    · exact resolveKey_prompt_nonempty args env ho _ h
    · simp [confirm_use_exisitng_snapshot] at h
    · exact resolveSnapshot_prompt_nonempty args env rid _ h

/-- Witness for C6: an empty instance listing fails resource resolution with
the empty-candidate-set error and no prompt. -/
theorem c6_empty_candidates_fatal_witness :
    resolveIdentifier ⟨none, some "k", DatabaseType.database, some "s"⟩ envSmall
        Answer.cancel
      = ([Event.listInstances], Except.error RunErr.emptyOptions) :=
  (c6_empty_candidates_fatal ⟨none, some "k", DatabaseType.database, some "s"⟩ envSmall id
      ⟨Answer.cancel, Answer.cancel, Answer.cancel, Answer.cancel⟩).1 rfl rfl rfl
